import Mathlib

/-!
Verification of the solid rocket motor physics engine: burn regression,
chamber pressure, thrust and stress calculations, and the simulation
state machine, translated from the JavaScript source file that defines
CONSTANTS, PROPELLANTS, MATERIALS, the calculate* functions and the
MotorSimulation class.

Real numbers stand in for IEEE doubles. Where the source explicitly
branches on IEEE special values (Infinity, NaN) - the hoop stress
sentinel, the safety factor guard, the burn progress guard - the type
JSNum makes those special values explicit so that the guards can be
traced faithfully; everywhere else the arithmetic stays inside the
finite reals, where the sources' isFinite/isNaN guards cannot fire.
-/

open Classical

noncomputable section

/-- CONSTANTS.ATMOSPHERIC_PRESSURE, in Pa (1 atm). -/
def ATMOSPHERIC_PRESSURE : ℝ := 101325

/-- CONSTANTS.GRAVITY, in m per s squared. -/
def GRAVITY : ℝ := 9.81

/-- One entry of the PROPELLANTS catalog (numeric fields; the display
name string is omitted). -/
structure Propellant where
  density : ℝ
  burnRateCoeff : ℝ
  burnRateExponent : ℝ
  referencePressure : ℝ
  characteristicVelocity : ℝ
  gamma : ℝ
  combustionTemp : ℝ
  molecularMass : ℝ

/-- PROPELLANTS.KNSB from the catalog. -/
def KNSB : Propellant :=
  { density := 1841
    burnRateCoeff := 8.26
    burnRateExponent := 0.319
    referencePressure := 6.895
    characteristicVelocity := 885
    gamma := 1.133
    combustionTemp := 1600
    molecularMass := 39.9 }

/-- One entry of the MATERIALS catalog (numeric fields; the display name
and color strings are omitted). -/
structure Material where
  density : ℝ
  yieldStrength : ℝ
  ultimateStrength : ℝ
  thermalConductivity : ℝ

/-- MATERIALS.ALUMINUM from the catalog. -/
def ALUMINUM : Material :=
  { density := 2700
    yieldStrength := 276e6
    ultimateStrength := 310e6
    thermalConductivity := 167 }

/-- GRAIN_TYPES variants. -/
inductive GrainType where
  | bates
  | star
  | cylindrical
  | finocyl

/-- The grainConfig record of the simulation configuration. -/
structure GrainConfig where
  type : GrainType
  outerRadius : ℝ
  coreRadius : ℝ
  length : ℝ
  segments : ℝ
  starPoints : ℝ
  starInnerRadius : ℝ

/-- The nozzle record of the simulation configuration. -/
structure Nozzle where
  throatDiameter : ℝ
  exitDiameter : ℝ
  efficiency : ℝ

/-- The casing record of the simulation configuration. -/
structure Casing where
  innerRadius : ℝ
  wallThickness : ℝ

/-- The full simulation configuration owned by MotorSimulation. -/
structure Config where
  propellant : Propellant
  material : Material
  grainConfig : GrainConfig
  nozzle : Nozzle
  casing : Casing

/-- The default configuration built by the MotorSimulation constructor
when no overrides are supplied. -/
def defaultConfig : Config :=
  { propellant := KNSB
    material := ALUMINUM
    grainConfig :=
      { type := .bates
        outerRadius := 0.0285
        coreRadius := 0.0095
        length := 0.065
        segments := 4
        starPoints := 5
        starInnerRadius := 0.006 }
    nozzle :=
      { throatDiameter := 0.009
        exitDiameter := 0.018
        efficiency := 0.90 }
    casing :=
      { innerRadius := 0.030
        wallThickness := 0.003 } }

/-- A JavaScript number: either a finite double (modelled as a real) or
one of the IEEE special values Infinity, minus Infinity, NaN. -/
inductive JSNum where
  | nan
  | inf
  | ninf
  | fin (x : ℝ)

/-- JavaScript division of two finite numbers: division by zero yields a
signed infinity (or NaN for zero over zero), otherwise real division. -/
def jsDiv (a b : ℝ) : JSNum :=
  if b = 0 then (if a = 0 then .nan else if 0 < a then .inf else .ninf)
  else .fin (a / b)

/-- JavaScript division of a finite number by a possibly special number:
a finite value divided by an infinity is zero, by NaN is NaN. -/
def jsDivFin (a : ℝ) : JSNum → JSNum
  | .nan => .nan
  | .inf => .fin 0
  | .ninf => .fin 0
  | .fin b =>
      if b = 0 then (if a = 0 then .nan else if 0 < a then .inf else .ninf)
      else .fin (a / b)

/-- JavaScript Math.min of a possibly special number and a finite one:
NaN propagates, Infinity is replaced by the finite argument. -/
def jsMin (x : JSNum) (c : ℝ) : JSNum :=
  match x with
  | .nan => .nan
  | .inf => .fin c
  | .ninf => .ninf
  | .fin v => .fin (min v c)

/-- JavaScript Math.max of a finite number and a possibly special one:
NaN propagates, minus Infinity is replaced by the finite argument. -/
def jsMax (c : ℝ) (x : JSNum) : JSNum :=
  match x with
  | .nan => .nan
  | .inf => .inf
  | .ninf => .fin c
  | .fin v => .fin (max c v)

/-- The JavaScript comparison x less-or-equal zero: false for NaN and
Infinity, true for minus Infinity. -/
def JSNum.leZero : JSNum → Prop
  | .nan => False
  | .inf => False
  | .ninf => True
  | .fin x => x ≤ 0

/-- The JavaScript strict comparison x greater than a finite c: false
for NaN and minus Infinity, true for Infinity. -/
def JSNum.gtR : JSNum → ℝ → Prop
  | .nan, _ => False
  | .inf, _ => True
  | .ninf, _ => False
  | .fin x, c => c < x

/-- The JavaScript isFinite predicate. -/
def JSNum.isFinite : JSNum → Prop
  | .fin _ => True
  | _ => False

/-- The JavaScript isNaN predicate. -/
def JSNum.isNaN : JSNum → Prop
  | .nan => True
  | _ => False

/-- The underlying real of a finite JS number; junk value 0 on the
special values (only read behind isFinite / isNaN guards). -/
def JSNum.toReal : JSNum → ℝ
  | .fin x => x
  | _ => 0

/-- Division of a JS number by a positive finite constant (used for the
unit scaling of history samples); infinities and NaN pass through. -/
def JSNum.divPos : JSNum → ℝ → JSNum
  | .nan, _ => .nan
  | .inf, _ => .inf
  | .ninf, _ => .ninf
  | .fin x, c => .fin (x / c)

/-- calculateBurningArea: burning surface area for the current grain
geometry and burned-back inner radius. The inner radius is clamped to
the band from 1 mm up to 0.99 times the outer radius; segments, length
and outer radius fall back to defaults when zero (the JS falsy guard). -/
def calculateBurningArea (g : GrainConfig) (currentInnerRadius : ℝ) : ℝ :=
  let r := min (max currentInnerRadius 0.001) (g.outerRadius * 0.99)
  let N := if g.segments = 0 then 1 else g.segments
  let L := if g.length = 0 then 0.1 else g.length
  let R := if g.outerRadius = 0 then 0.038 else g.outerRadius
  match g.type with
  | .bates =>
      let coreArea := N * 2 * Real.pi * r * L
      let endInhibition : ℝ := 0.3
      let endArea := N * 2 * Real.pi * (R * R - r * r) * endInhibition
      coreArea + endArea
  | .cylindrical => N * 2 * Real.pi * r * L
  | .star =>
      let starMultiplier : ℝ := 2.5
      N * 2 * Real.pi * r * L * starMultiplier
  | .finocyl => N * 2 * Real.pi * r * L

/-- calculateBurnRate: Saint-Venant power law, pressure floored at
0.1 MPa, reference pressure defaulted when zero, result converted to
m per s and clamped to the band from 0 to 0.030. Over the reals the
isFinite guard of the source cannot fire. -/
def calculateBurnRate (pressure : ℝ) (p : Propellant) : ℝ :=
  let P_MPa := max (pressure / 1e6) 0.1
  let Pref := if p.referencePressure = 0 then 6.895 else p.referencePressure
  let rate_mm_s := p.burnRateCoeff * (P_MPa / Pref) ^ p.burnRateExponent
  let rate_m_s := rate_mm_s / 1000
  max 0 (min rate_m_s 0.030)

/-- calculateThroatArea: circular area from the throat diameter. -/
def calculateThroatArea (throatDiameter : ℝ) : ℝ :=
  let r := throatDiameter / 2
  Real.pi * r * r

/-- One pass of the chamber pressure fixed-point loop: burn rate at the
current estimate, generated mass flow, new pressure estimate, early
return when two successive estimates agree within 1 kPa, otherwise a
70/30 relaxation blend.  The fuel argument is the remaining iteration
count of the for loop. -/
def pcIter (rho a_m_s n Pref cStar Ab At : ℝ) : ℕ → ℝ → ℝ
  | 0, Pc => Pc
  | k + 1, Pc =>
      let r := a_m_s * (Pc / Pref) ^ n
      let mdot_gen := rho * r * Ab
      let Pc_new := mdot_gen * cStar / At
      if |Pc_new - Pc| < 1000 then Pc
      else pcIter rho a_m_s n Pref cStar Ab At k (0.7 * Pc + 0.3 * Pc_new)

/-- calculateChamberPressure: degenerate burning or throat area returns
atmospheric pressure immediately; otherwise the relaxed fixed-point
iteration runs from a 2 MPa seed for at most 20 iterations and the
result is clamped to the band from atmospheric pressure to 15 MPa.
Over the reals the isFinite guard of the source cannot fire. -/
def calculateChamberPressure (burningArea throatArea : ℝ) (p : Propellant) : ℝ :=
  if burningArea ≤ 0 then ATMOSPHERIC_PRESSURE
  else if throatArea ≤ 0 then ATMOSPHERIC_PRESSURE
  else
    let a_m_s := p.burnRateCoeff / 1000
    let Pref := (if p.referencePressure = 0 then 6.895 else p.referencePressure) * 1e6
    let Pc := pcIter p.density a_m_s p.burnRateExponent Pref
      p.characteristicVelocity burningArea throatArea 20 2e6
    max ATMOSPHERIC_PRESSURE (min Pc 15e6)

/-- calculateThrustCoefficient: zero at or below atmospheric chamber
pressure, otherwise the isentropic approximation clamped to the band
from 1.0 to 2.2 (the non-finite fallback of 1.5 cannot fire over the
reals; the expansion ratio is computed but unused in the source). -/
def calculateThrustCoefficient (gamma exitArea throatArea chamberPressure : ℝ) : ℝ :=
  let Pe := ATMOSPHERIC_PRESSURE
  let Pc := chamberPressure
  if Pc ≤ Pe then 0
  else
    let _epsilon := exitArea / throatArea
    let pressureRatio := Pe / Pc
    let term1 := 2 * gamma * gamma / (gamma - 1)
    let term2 := (2 / (gamma + 1)) ^ ((gamma + 1) / (gamma - 1))
    let term3 := 1 - pressureRatio ^ ((gamma - 1) / gamma)
    let Cf := Real.sqrt (term1 * term2 * max term3 0)
    max 1.0 (min Cf 2.2)

/-- calculateThrust: zero at or below atmospheric pressure or for a
non-positive throat area, otherwise coefficient times pressure times
throat area, floored at zero. -/
def calculateThrust (chamberPressure throatArea exitArea : ℝ) (p : Propellant) : ℝ :=
  if chamberPressure ≤ ATMOSPHERIC_PRESSURE then 0
  else if throatArea ≤ 0 then 0
  else
    let Cf := calculateThrustCoefficient p.gamma exitArea throatArea chamberPressure
    let thrust := Cf * chamberPressure * throatArea
    max 0 thrust

/-- calculateHoopStress: thin-wall hoop stress; a non-positive wall
thickness yields the Infinity sentinel, otherwise the finite stress
floored at zero. -/
def calculateHoopStress (pressure innerRadius wallThickness : ℝ) : JSNum :=
  if wallThickness ≤ 0 then .inf
  else .fin (max 0 (pressure * innerRadius / wallThickness))

/-- calculateSafetyFactor: 99 for non-positive stress, yield strength
over stress clamped to the band from 0 to 99 otherwise, with the
non-finite quotient guard returning 99. -/
def calculateSafetyFactor (stress : JSNum) (m : Material) : ℝ :=
  if stress.leZero then 99
  else
    let sf := jsDivFin m.yieldStrength stress
    if sf.isFinite then max 0 (min sf.toReal 99) else 99

/-- checkForFailure flags. -/
structure FailureFlags where
  yielding : Prop
  catastrophic : Prop

/-- checkForFailure: yielding and catastrophic comparisons of the hoop
stress against the material strengths. -/
def checkForFailure (stress : JSNum) (m : Material) : FailureFlags :=
  { yielding := stress.gtR m.yieldStrength
    catastrophic := stress.gtR m.ultimateStrength }

/-- The history record of sampled tuples.  Lists are kept newest first,
so the sample the source reads at index length minus one is the head. -/
structure History where
  time : List ℝ
  pressure : List ℝ
  thrust : List ℝ
  burnRate : List ℝ
  innerRadius : List ℝ
  Kn : List ℝ
  stress : List JSNum

/-- The empty history created by reset. -/
def History.empty : History :=
  { time := [], pressure := [], thrust := [], burnRate := []
    innerRadius := [], Kn := [], stress := [] }

/-- The history sampling guard of update: sample when no sample exists
yet or at least 0.01 s of simulated time has elapsed since the last. -/
def shouldSample (h : History) (time : ℝ) : Prop :=
  match h.time with
  | [] => True
  | t0 :: _ => 0.01 ≤ time - t0

/-- Appending one sample to every series of the history. -/
def pushHistory (h : History) (time pressure thrust burnRate innerRadius Kn : ℝ)
    (stress : JSNum) : History :=
  { time := time :: h.time
    pressure := pressure :: h.pressure
    thrust := thrust :: h.thrust
    burnRate := burnRate :: h.burnRate
    innerRadius := innerRadius :: h.innerRadius
    Kn := Kn :: h.Kn
    stress := stress :: h.stress }

/-- The full mutable state of a MotorSimulation instance, including its
configuration. -/
structure Sim where
  config : Config
  time : ℝ
  currentInnerRadius : ℝ
  chamberPressure : ℝ
  thrust : ℝ
  burnRate : ℝ
  burnRateMmS : ℝ
  burningArea : ℝ
  Kn : ℝ
  stress : JSNum
  safetyFactor : ℝ
  isBurning : Bool
  isBurnedOut : Bool
  hasExploded : Bool
  explosionTime : Option ℝ
  history : History
  totalImpulse : ℝ
  burnTime : ℝ
  maxThrust : ℝ
  maxPressure : ℝ

/-- reset: reinitialize every mutable field, with the inner radius at
the configured core radius, pressure at atmospheric, empty history. -/
def reset (c : Config) : Sim :=
  { config := c
    time := 0
    currentInnerRadius := c.grainConfig.coreRadius
    chamberPressure := ATMOSPHERIC_PRESSURE
    thrust := 0
    burnRate := 0
    burnRateMmS := 0
    burningArea := 0
    Kn := 0
    stress := .fin 0
    safetyFactor := 99
    isBurning := false
    isBurnedOut := false
    hasExploded := false
    explosionTime := none
    history := History.empty
    totalImpulse := 0
    burnTime := 0
    maxThrust := 0
    maxPressure := 0 }

/-- ignite: start burning unless the motor is already burned out or has
exploded. -/
def ignite (s : Sim) : Sim :=
  if !s.isBurnedOut && !s.hasExploded then { s with isBurning := true }
  else s

/-- update: one simulation step of deltaTime seconds, translated line by
line from MotorSimulation.update.  The early returns of the source (not
burning, and web burned through) are the two if branches. -/
def update (deltaTime : ℝ) (s : Sim) : Sim :=
  if !s.isBurning || s.isBurnedOut || s.hasExploded then s
  else
    let time := s.time + deltaTime
    let throatArea := calculateThroatArea s.config.nozzle.throatDiameter
    let exitArea := Real.pi * (s.config.nozzle.exitDiameter / 2) ^ (2 : ℕ)
    let burningArea := calculateBurningArea s.config.grainConfig s.currentInnerRadius
    let Kn := burningArea / throatArea
    let chamberPressure := calculateChamberPressure burningArea throatArea s.config.propellant
    let maxPressure := max s.maxPressure chamberPressure
    let burnRate := calculateBurnRate chamberPressure s.config.propellant
    let burnRateMmS := burnRate * 1000
    let regression := burnRate * deltaTime
    let currentInnerRadius := s.currentInnerRadius + regression
    let webRemaining := s.config.grainConfig.outerRadius - currentInnerRadius
    if webRemaining ≤ 0.001 ∨
        currentInnerRadius ≥ s.config.grainConfig.outerRadius * 0.98 then
      { s with
        time := time
        burningArea := burningArea
        Kn := Kn
        maxPressure := maxPressure
        currentInnerRadius := currentInnerRadius
        isBurnedOut := true
        isBurning := false
        burnTime := time
        thrust := 0
        chamberPressure := ATMOSPHERIC_PRESSURE
        burnRate := 0
        burnRateMmS := 0 }
    else
      let thrust := calculateThrust chamberPressure throatArea exitArea s.config.propellant *
        s.config.nozzle.efficiency
      let maxThrust := max s.maxThrust thrust
      let stress := calculateHoopStress chamberPressure s.config.casing.innerRadius
        s.config.casing.wallThickness
      let safetyFactor := calculateSafetyFactor stress s.config.material
      let catastrophic := (checkForFailure stress s.config.material).catastrophic
      let hasExploded := if catastrophic then true else s.hasExploded
      let explosionTime := if catastrophic then some time else s.explosionTime
      let totalImpulse := s.totalImpulse + thrust * deltaTime
      let history :=
        if shouldSample s.history time then
          pushHistory s.history time (chamberPressure / 1e6) thrust burnRateMmS
            (currentInnerRadius * 1000) Kn (stress.divPos 1e6)
        else s.history
      { s with
        time := time
        burningArea := burningArea
        Kn := Kn
        chamberPressure := chamberPressure
        maxPressure := maxPressure
        burnRate := burnRate
        burnRateMmS := burnRateMmS
        currentInnerRadius := currentInnerRadius
        thrust := thrust
        maxThrust := maxThrust
        stress := stress
        safetyFactor := safetyFactor
        hasExploded := hasExploded
        explosionTime := explosionTime
        totalImpulse := totalImpulse
        history := history }

/-- The grainBurnProgress accessor computed by getState: web burned over
web thickness, run through the JavaScript Math.min and Math.max clamps,
with the final isNaN guard mapping NaN to 0.  The inf and ninf arms are
unreachable because the min with 1 removes Infinity and the max with 0
removes minus Infinity. -/
def grainBurnProgress (g : GrainConfig) (currentInnerRadius : ℝ) : ℝ :=
  let webThickness := g.outerRadius - g.coreRadius
  let webBurned := currentInnerRadius - g.coreRadius
  let clamped := jsMax 0 (jsMin (jsDiv webBurned webThickness) 1)
  match clamped with
  | .nan => 0
  | .fin v => v
  | .inf => 0
  | .ninf => 0

/-- A partial update of the grainConfig record: each provided field
replaces the old one, the rest keep their values (the JS object spread
merge). -/
structure GrainPatch where
  type : Option GrainType := none
  outerRadius : Option ℝ := none
  coreRadius : Option ℝ := none
  length : Option ℝ := none
  segments : Option ℝ := none
  starPoints : Option ℝ := none
  starInnerRadius : Option ℝ := none

/-- Spread merge of a grain patch over a grain config. -/
def mergeGrain (g : GrainConfig) (p : GrainPatch) : GrainConfig :=
  { type := p.type.getD g.type
    outerRadius := p.outerRadius.getD g.outerRadius
    coreRadius := p.coreRadius.getD g.coreRadius
    length := p.length.getD g.length
    segments := p.segments.getD g.segments
    starPoints := p.starPoints.getD g.starPoints
    starInnerRadius := p.starInnerRadius.getD g.starInnerRadius }

/-- A partial update of the nozzle record. -/
structure NozzlePatch where
  throatDiameter : Option ℝ := none
  exitDiameter : Option ℝ := none
  efficiency : Option ℝ := none

/-- Spread merge of a nozzle patch over a nozzle config. -/
def mergeNozzle (n : Nozzle) (p : NozzlePatch) : Nozzle :=
  { throatDiameter := p.throatDiameter.getD n.throatDiameter
    exitDiameter := p.exitDiameter.getD n.exitDiameter
    efficiency := p.efficiency.getD n.efficiency }

/-- A partial update of the casing record. -/
structure CasingPatch where
  innerRadius : Option ℝ := none
  wallThickness : Option ℝ := none

/-- Spread merge of a casing patch over a casing config. -/
def mergeCasing (c : Casing) (p : CasingPatch) : Casing :=
  { innerRadius := p.innerRadius.getD c.innerRadius
    wallThickness := p.wallThickness.getD c.wallThickness }

/-- A partial configuration as accepted by updateConfig: absent
top-level keys leave the corresponding sub-object untouched; propellant
and material are replaced whole, the geometry records are spread
merged. -/
structure ConfigPatch where
  propellant : Option Propellant := none
  material : Option Material := none
  grainConfig : Option GrainPatch := none
  nozzle : Option NozzlePatch := none
  casing : Option CasingPatch := none

/-- updateConfig: shallow merge of the provided sub-objects into the
configuration; no simulation state field is touched. -/
def updateConfig (p : ConfigPatch) (s : Sim) : Sim :=
  { s with
    config :=
      { propellant := p.propellant.getD s.config.propellant
        material := p.material.getD s.config.material
        grainConfig :=
          match p.grainConfig with
          | none => s.config.grainConfig
          | some gp => mergeGrain s.config.grainConfig gp
        nozzle :=
          match p.nozzle with
          | none => s.config.nozzle
          | some np => mergeNozzle s.config.nozzle np
        casing :=
          match p.casing with
          | none => s.config.casing
          | some cp => mergeCasing s.config.casing cp } }

/-- The burned-back inner radius computed by one update step while
burning: previous radius plus burn rate (at the freshly solved chamber
pressure) times the timestep. -/
def regressedRadius (c : Config) (r dt : ℝ) : ℝ :=
  r + calculateBurnRate
      (calculateChamberPressure (calculateBurningArea c.grainConfig r)
        (calculateThroatArea c.nozzle.throatDiameter) c.propellant)
      c.propellant * dt

/-- The burnout condition of update, evaluated on the regressed radius:
remaining web at most 1 mm, or radius at least 0.98 times the outer
radius. -/
def burnoutAfter (c : Config) (r dt : ℝ) : Prop :=
  c.grainConfig.outerRadius - regressedRadius c r dt ≤ 0.001 ∨
  regressedRadius c r dt ≥ c.grainConfig.outerRadius * 0.98

/-- The states reachable from reset by ignite, update with timesteps
satisfying D, and reset. -/
inductive ReachableFrom (D : ℝ → Prop) (c : Config) : Sim → Prop where
  | init : ReachableFrom D c (reset c)
  | igniteStep {s : Sim} : ReachableFrom D c s → ReachableFrom D c (ignite s)
  | updateStep {s : Sim} {dt : ℝ} : ReachableFrom D c s → D dt →
      ReachableFrom D c (update dt s)
  | resetStep {s : Sim} : ReachableFrom D c s → ReachableFrom D c (reset s.config)

/-- A degenerate grain whose outer radius equals its core radius, making
the burn progress ratio zero over zero or nonzero over zero. -/
def equalRadiiGrain : GrainConfig :=
  { type := .bates
    outerRadius := 1
    coreRadius := 1
    length := 0.1
    segments := 1
    starPoints := 5
    starInnerRadius := 0.006 }

/-- The partial configuration that sets only grainConfig.segments to 6. -/
def segmentsPatch : ConfigPatch :=
  { grainConfig := some { segments := some 6 } }

/-- The burn rate clamp keeps every result nonnegative. -/
lemma calculateBurnRate_nonneg (P : ℝ) (p : Propellant) :
    0 ≤ calculateBurnRate P p :=
  le_max_left 0 _

/-- The burn rate clamp keeps every result at most 0.030. -/
lemma calculateBurnRate_le (P : ℝ) (p : Propellant) :
    calculateBurnRate P p ≤ 0.030 := by
  unfold calculateBurnRate
  exact max_le (by norm_num) (min_le_right _ _)

/-- Claim C1: for every propellant and every pair of positive burning
and throat areas the chamber pressure solver returns a value in the
band from 101325 Pa to 15e6 Pa (termination within the 20-iteration
fixed-point loop is structural: pcIter runs on fuel 20), and for every
degenerate call with a non-positive burning or throat area it returns
atmospheric pressure immediately. -/
theorem chamberPressure_bounded (p : Propellant) (burningArea throatArea : ℝ) :
    (0 < burningArea → 0 < throatArea →
      calculateChamberPressure burningArea throatArea p ∈ Set.Icc (101325 : ℝ) 15e6) ∧
    (burningArea ≤ 0 ∨ throatArea ≤ 0 →
      calculateChamberPressure burningArea throatArea p = 101325) := by
  constructor
  · intro hAb hAt
    simp only [calculateChamberPressure, ATMOSPHERIC_PRESSURE,
      if_neg (not_le.mpr hAb), if_neg (not_le.mpr hAt)]
    exact ⟨le_max_left _ _, max_le (by norm_num) (min_le_right _ _)⟩
  · intro h
    unfold calculateChamberPressure
    rcases h with h | h
    · rw [if_pos h]
      rfl
    · by_cases hAb : burningArea ≤ 0
      · rw [if_pos hAb]
        rfl
      · rw [if_neg hAb, if_pos h]
        rfl

/-- Witness for chamberPressure_bounded: a concrete valid call lands in
the band and a concrete degenerate call returns atmospheric pressure. -/
theorem chamberPressure_bounded_witness :
    calculateChamberPressure 1 1 KNSB ∈ Set.Icc (101325 : ℝ) 15e6 ∧
    calculateChamberPressure 0 1 KNSB = 101325 :=
  ⟨(chamberPressure_bounded KNSB 1 1).1 (by norm_num) (by norm_num),
   (chamberPressure_bounded KNSB 0 1).2 (Or.inl (by norm_num))⟩

/-- Claim C4: the burn rate always lands in the band from 0 to 0.030
m per s (the non-finite guard of the source cannot fire over the
reals), and for a fixed propellant with positive exponent and positive
reference pressure it is non-decreasing in the pressure argument. -/
theorem burnRate_monotone_bounded (p : Propellant) :
    (∀ P : ℝ, calculateBurnRate P p ∈ Set.Icc (0 : ℝ) 0.030) ∧
    (0 < p.burnRateExponent → 0 < p.referencePressure →
      ∀ P Q : ℝ, P ≤ Q → calculateBurnRate P p ≤ calculateBurnRate Q p) := by
  constructor
  · intro P
    exact ⟨calculateBurnRate_nonneg P p, calculateBurnRate_le P p⟩
  · intro hn hPref P Q hPQ
    unfold calculateBurnRate
    simp only [if_neg (ne_of_gt hPref)]
    set x := max (P / 1e6) 0.1 with hxdef
    set y := max (Q / 1e6) 0.1 with hydef
    have hx : (0 : ℝ) < x := lt_of_lt_of_le (by norm_num) (le_max_right _ _)
    have hxy : x ≤ y :=
      max_le_max ((div_le_div_right (by norm_num)).mpr hPQ) le_rfl
    have hbase : x / p.referencePressure ≤ y / p.referencePressure :=
      (div_le_div_right hPref).mpr hxy
    have hbasepos : 0 < x / p.referencePressure := div_pos hx hPref
    have hpow : (x / p.referencePressure) ^ p.burnRateExponent ≤
        (y / p.referencePressure) ^ p.burnRateExponent :=
      Real.rpow_le_rpow hbasepos.le hbase hn.le
    rcases le_or_lt p.burnRateCoeff 0 with hc | hc
    · have hm1 : p.burnRateCoeff * (x / p.referencePressure) ^ p.burnRateExponent ≤ 0 :=
        mul_nonpos_iff.mpr (Or.inr ⟨hc, Real.rpow_nonneg hbasepos.le _⟩)
      have hm2 : p.burnRateCoeff * (y / p.referencePressure) ^ p.burnRateExponent ≤ 0 :=
        mul_nonpos_iff.mpr (Or.inr ⟨hc, Real.rpow_nonneg (div_pos
          (lt_of_lt_of_le (by norm_num) (le_max_right _ _)) hPref).le _⟩)
      have h1 : p.burnRateCoeff * (x / p.referencePressure) ^ p.burnRateExponent / 1000 ≤ 0 := by
        linarith
      have h2 : p.burnRateCoeff * (y / p.referencePressure) ^ p.burnRateExponent / 1000 ≤ 0 := by
        linarith
      rw [max_eq_left ((min_le_left _ _).trans h1),
        max_eq_left ((min_le_left _ _).trans h2)]
    · exact max_le_max le_rfl (min_le_min
        ((div_le_div_right (by norm_num)).mpr (mul_le_mul_of_nonneg_left hpow hc.le)) le_rfl)

/-- Witness for burnRate_monotone_bounded at KNSB: membership at zero
pressure, and monotonicity between 1 MPa and 2 MPa. -/
theorem burnRate_monotone_bounded_witness :
    calculateBurnRate 0 KNSB ∈ Set.Icc (0 : ℝ) 0.030 ∧
    calculateBurnRate 1e6 KNSB ≤ calculateBurnRate 2e6 KNSB :=
  ⟨(burnRate_monotone_bounded KNSB).1 0,
   (burnRate_monotone_bounded KNSB).2 (by norm_num [KNSB]) (by norm_num [KNSB])
     1e6 2e6 (by norm_num)⟩

/-- Claim C10: at or below atmospheric chamber pressure the thrust
coefficient is 0 - a value outside the documented clamp band from 1.0
to 2.2 - and the thrust is 0. -/
theorem thrust_zero_at_or_below_atmospheric (gamma exitArea throatArea Pc : ℝ)
    (p : Propellant) (h : Pc ≤ 101325) :
    calculateThrustCoefficient gamma exitArea throatArea Pc = 0 ∧
    calculateThrust Pc throatArea exitArea p = 0 ∧
    (0 : ℝ) ∉ Set.Icc (1 : ℝ) 2.2 := by
  refine ⟨?_, ?_, by norm_num⟩
  · simp only [calculateThrustCoefficient, ATMOSPHERIC_PRESSURE]
    rw [if_pos h]
  · simp only [calculateThrust, ATMOSPHERIC_PRESSURE]
    rw [if_pos h]

/-- Witness for thrust_zero_at_or_below_atmospheric at exactly
atmospheric pressure. -/
theorem thrust_zero_at_or_below_atmospheric_witness :
    calculateThrustCoefficient 1.2 1 1 101325 = 0 ∧
    calculateThrust 101325 1 1 KNSB = 0 :=
  ⟨(thrust_zero_at_or_below_atmospheric 1.2 1 1 101325 KNSB (by norm_num)).1,
   (thrust_zero_at_or_below_atmospheric 1.2 1 1 101325 KNSB (by norm_num)).2.1⟩

/-- Counterexample to claim C6: at an infinite stress - a non-finite
value, produced for instance by calculateHoopStress with a zero wall
thickness - the safety factor is 0, not the maximum safety value 99
that the claim requires for every non-finite stress. -/
theorem safetyFactor_infinite_stress_cex :
    calculateSafetyFactor JSNum.inf ALUMINUM = 0 ∧
    calculateHoopStress 2e6 0.030 0 = JSNum.inf ∧ (0 : ℝ) ≠ 99 := by
  refine ⟨?_, ?_, by norm_num⟩
  · simp [calculateSafetyFactor, JSNum.leZero, jsDivFin, JSNum.isFinite, JSNum.toReal]
  · simp [calculateHoopStress]

/-- Claim C6 amended: the safety factor is the yield strength over the
stress clamped to the band from 0 to 99 for finite positive stress; a
non-positive stress (including minus Infinity) and a NaN stress give
the maximum safety value 99; an Infinity stress gives 0, because the
quotient collapses to zero before the clamp. -/
theorem safetyFactor_cases (m : Material) :
    calculateSafetyFactor JSNum.nan m = 99 ∧
    calculateSafetyFactor JSNum.ninf m = 99 ∧
    calculateSafetyFactor JSNum.inf m = 0 ∧
    (∀ x : ℝ, x ≤ 0 → calculateSafetyFactor (JSNum.fin x) m = 99) ∧
    (∀ x : ℝ, 0 < x →
      calculateSafetyFactor (JSNum.fin x) m = max 0 (min (m.yieldStrength / x) 99)) := by
  refine ⟨?_, ?_, ?_, ?_, ?_⟩
  · simp [calculateSafetyFactor, JSNum.leZero, jsDivFin, JSNum.isFinite]
  · simp [calculateSafetyFactor, JSNum.leZero]
  · simp [calculateSafetyFactor, JSNum.leZero, jsDivFin, JSNum.isFinite, JSNum.toReal]
  · intro x hx
    simp [calculateSafetyFactor, JSNum.leZero, hx]
  · intro x hx
    rw [calculateSafetyFactor]
    rw [if_neg (by simp [JSNum.leZero]; exact hx)]
    rw [jsDivFin]
    rw [if_neg (ne_of_gt hx)]
    simp [JSNum.isFinite, JSNum.toReal]

/-- Witness for safetyFactor_cases: the finite arms evaluated at
concrete stresses for the aluminum casing material. -/
theorem safetyFactor_cases_witness :
    calculateSafetyFactor (JSNum.fin 2) ALUMINUM =
      max 0 (min (ALUMINUM.yieldStrength / 2) 99) ∧
    calculateSafetyFactor (JSNum.fin (-1)) ALUMINUM = 99 :=
  ⟨(safetyFactor_cases ALUMINUM).2.2.2.2 2 (by norm_num),
   (safetyFactor_cases ALUMINUM).2.2.2.1 (-1) (by norm_num)⟩

/-- Counterexample to claim C9: on a state whose grain has outer radius
equal to core radius and whose inner radius exceeds the core radius,
the burn progress ratio is plus Infinity - a non-finite value - yet the
accessor returns 1, not 0: the Math.min clamp turns Infinity into 1
before the isNaN guard can see it. -/
theorem grainBurnProgress_infinite_cex :
    grainBurnProgress equalRadiiGrain 2 = 1 ∧ (1 : ℝ) ≠ 0 := by
  constructor
  · rw [grainBurnProgress]
    simp only [equalRadiiGrain]
    rw [jsDiv]
    norm_num
    rw [jsMin, jsMax]
    norm_num
  · norm_num

/-- Claim C9 amended: the burn progress accessor always lands in the
band from 0 to 1; for a finite ratio (web thickness nonzero) it is the
ratio clamped to that band; when the web thickness is zero the NaN case
(radius equal to core) and the minus Infinity case (radius below core)
return 0, but the plus Infinity case (radius above core) returns 1
rather than the 0 the claim requires for every non-finite ratio. -/
theorem grainBurnProgress_cases (g : GrainConfig) (r : ℝ) :
    grainBurnProgress g r ∈ Set.Icc (0 : ℝ) 1 ∧
    (g.outerRadius - g.coreRadius ≠ 0 →
      grainBurnProgress g r =
        max 0 (min ((r - g.coreRadius) / (g.outerRadius - g.coreRadius)) 1)) ∧
    (g.outerRadius - g.coreRadius = 0 → r = g.coreRadius →
      grainBurnProgress g r = 0) ∧
    (g.outerRadius - g.coreRadius = 0 → g.coreRadius < r →
      grainBurnProgress g r = 1) ∧
    (g.outerRadius - g.coreRadius = 0 → r < g.coreRadius →
      grainBurnProgress g r = 0) := by
  refine ⟨?_, ?_, ?_, ?_, ?_⟩
  · rw [grainBurnProgress]
    by_cases hwt : g.outerRadius - g.coreRadius = 0
    · rw [jsDiv, if_pos hwt]
      by_cases hwb : r - g.coreRadius = 0
      · rw [if_pos hwb]
        simp [jsMin, jsMax]
      · rw [if_neg hwb]
        by_cases hpos : 0 < r - g.coreRadius
        · rw [if_pos hpos]
          simp [jsMin, jsMax]
        · rw [if_neg hpos]
          simp [jsMin, jsMax]
    · rw [jsDiv, if_neg hwt]
      simp only [jsMin, jsMax]
      exact ⟨le_max_left _ _, max_le (by norm_num) (min_le_right _ _)⟩
  · intro hwt
    rw [grainBurnProgress, jsDiv, if_neg hwt]
    simp only [jsMin, jsMax]
  · intro hwt hr
    rw [grainBurnProgress, jsDiv, if_pos hwt, if_pos (by rw [hr]; ring)]
    simp [jsMin, jsMax]
  · intro hwt hr
    rw [grainBurnProgress, jsDiv, if_pos hwt,
      if_neg (by intro h; apply absurd hr; intro hlt; linarith),
      if_pos (by linarith)]
    simp [jsMin, jsMax]
  · intro hwt hr
    rw [grainBurnProgress, jsDiv, if_pos hwt,
      if_neg (by intro h; apply absurd hr; intro hlt; linarith),
      if_neg (by intro h; linarith)]
    simp [jsMin, jsMax]

/-- Witness for grainBurnProgress_cases: a concrete half-burned state
of the default grain evaluates to the clamped ratio. -/
theorem grainBurnProgress_cases_witness :
    grainBurnProgress defaultConfig.grainConfig 0.019 =
      max 0 (min ((0.019 - defaultConfig.grainConfig.coreRadius) /
        (defaultConfig.grainConfig.outerRadius - defaultConfig.grainConfig.coreRadius)) 1) :=
  (grainBurnProgress_cases defaultConfig.grainConfig 0.019).2.1 (by norm_num [defaultConfig])

/-- When the early-return guard of update holds the state is returned
unchanged. -/
lemma update_stuck {dt : ℝ} {s : Sim}
    (h : (!s.isBurning || s.isBurnedOut || s.hasExploded) = true) :
    update dt s = s := by
  unfold update
  rw [if_pos h]

/-- update is the identity whenever the motor is not burning, already
burned out, or exploded. -/
lemma update_of_not_burning (dt : ℝ) {s : Sim}
    (h : s.isBurning = false ∨ s.isBurnedOut = true ∨ s.hasExploded = true) :
    update dt s = s := by
  refine update_stuck ?_
  rcases h with h | h | h <;> simp [h]

/-- ignite either switches on the burning flag or is the identity. -/
lemma ignite_eq (s : Sim) :
    ignite s = { s with isBurning := true } ∨ ignite s = s := by
  unfold ignite
  split
  · exact Or.inl rfl
  · exact Or.inr rfl

/-- ignite is the identity on a burned out or exploded state. -/
lemma ignite_of_terminal {s : Sim}
    (h : s.isBurnedOut = true ∨ s.hasExploded = true) :
    ignite s = s := by
  unfold ignite
  rw [if_neg]
  rcases h with h | h <;> simp [h]

/-- Characterization of one burning update step: the configuration is
untouched, the inner radius becomes the regressed radius, and a step
that does not end burned out left strictly more than 1 mm of web. -/
lemma update_burning_char (dt : ℝ) (s : Sim) (hb : s.isBurning = true)
    (hbo : s.isBurnedOut = false) (hex : s.hasExploded = false) :
    (update dt s).config = s.config ∧
    (update dt s).currentInnerRadius =
      regressedRadius s.config s.currentInnerRadius dt ∧
    ((update dt s).isBurnedOut = false →
      0.001 < s.config.grainConfig.outerRadius -
        regressedRadius s.config s.currentInnerRadius dt) := by
  unfold update
  rw [if_neg (by simp [hb, hbo, hex])]
  dsimp only
  split
  · refine ⟨rfl, rfl, fun hfalse => ?_⟩
    exact absurd hfalse (by simp)
  · rename_i hcond
    push_neg at hcond
    exact ⟨rfl, rfl, fun _ => hcond.1⟩

/-- Claim C7: update leaves the whole state unchanged whenever the phase
is not Burning (in particular an update in the Idle state after reset
keeps time at 0), and on a burned out or exploded state ignite is a
no-op, so no later ignite or update call changes anything. -/
theorem inert_phases (s : Sim) (dt : ℝ) :
    ((s.isBurning = false ∨ s.isBurnedOut = true ∨ s.hasExploded = true) →
      update dt s = s) ∧
    ((s.isBurnedOut = true ∨ s.hasExploded = true) → ignite s = s) ∧
    (∀ c : Config, update dt (reset c) = reset c ∧ (update dt (reset c)).time = 0) := by
  refine ⟨fun h => update_of_not_burning dt h, fun h => ignite_of_terminal h, fun c => ?_⟩
  have h0 : update dt (reset c) = reset c := update_of_not_burning dt (Or.inl rfl)
  exact ⟨h0, by rw [h0]; rfl⟩

/-- Witness for inert_phases: a concrete idle state is unchanged by
update, and a concrete burned out state is unchanged by ignite. -/
theorem inert_phases_witness :
    update 1 (reset defaultConfig) = reset defaultConfig ∧
    ignite { reset defaultConfig with isBurnedOut := true } =
      { reset defaultConfig with isBurnedOut := true } :=
  ⟨((inert_phases (reset defaultConfig) 1).2.2 defaultConfig).1,
   (inert_phases { reset defaultConfig with isBurnedOut := true } 1).2.1 (Or.inl rfl)⟩

/-- Claim C8: updating the configuration with a patch that only sets
grainConfig.segments to 6 changes exactly that field: the propellant,
material, nozzle and casing records, all other grainConfig fields, and
every mutable simulation state field are untouched. -/
theorem updateConfig_segments_frame (s : Sim) :
    (updateConfig segmentsPatch s).config.grainConfig.segments = 6 ∧
    (updateConfig segmentsPatch s).config.propellant = s.config.propellant ∧
    (updateConfig segmentsPatch s).config.material = s.config.material ∧
    (updateConfig segmentsPatch s).config.nozzle = s.config.nozzle ∧
    (updateConfig segmentsPatch s).config.casing = s.config.casing ∧
    (updateConfig segmentsPatch s).config.grainConfig.type = s.config.grainConfig.type ∧
    (updateConfig segmentsPatch s).config.grainConfig.outerRadius =
      s.config.grainConfig.outerRadius ∧
    (updateConfig segmentsPatch s).config.grainConfig.coreRadius =
      s.config.grainConfig.coreRadius ∧
    (updateConfig segmentsPatch s).config.grainConfig.length =
      s.config.grainConfig.length ∧
    (updateConfig segmentsPatch s).config.grainConfig.starPoints =
      s.config.grainConfig.starPoints ∧
    (updateConfig segmentsPatch s).config.grainConfig.starInnerRadius =
      s.config.grainConfig.starInnerRadius ∧
    (updateConfig segmentsPatch s).time = s.time ∧
    (updateConfig segmentsPatch s).currentInnerRadius = s.currentInnerRadius ∧
    (updateConfig segmentsPatch s).chamberPressure = s.chamberPressure ∧
    (updateConfig segmentsPatch s).thrust = s.thrust ∧
    (updateConfig segmentsPatch s).burnRate = s.burnRate ∧
    (updateConfig segmentsPatch s).burnRateMmS = s.burnRateMmS ∧
    (updateConfig segmentsPatch s).burningArea = s.burningArea ∧
    (updateConfig segmentsPatch s).Kn = s.Kn ∧
    (updateConfig segmentsPatch s).stress = s.stress ∧
    (updateConfig segmentsPatch s).safetyFactor = s.safetyFactor ∧
    (updateConfig segmentsPatch s).isBurning = s.isBurning ∧
    (updateConfig segmentsPatch s).isBurnedOut = s.isBurnedOut ∧
    (updateConfig segmentsPatch s).hasExploded = s.hasExploded ∧
    (updateConfig segmentsPatch s).explosionTime = s.explosionTime ∧
    (updateConfig segmentsPatch s).history = s.history ∧
    (updateConfig segmentsPatch s).totalImpulse = s.totalImpulse ∧
    (updateConfig segmentsPatch s).burnTime = s.burnTime ∧
    (updateConfig segmentsPatch s).maxThrust = s.maxThrust ∧
    (updateConfig segmentsPatch s).maxPressure = s.maxPressure := by
  simp [updateConfig, segmentsPatch, mergeGrain]

/-- The burnout branch of update written out as a record equation. -/
lemma update_burnout_eq (dt : ℝ) (s : Sim) (hb : s.isBurning = true)
    (hbo : s.isBurnedOut = false) (hex : s.hasExploded = false)
    (hcond : burnoutAfter s.config s.currentInnerRadius dt) :
    update dt s =
      { s with
        time := s.time + dt
        burningArea := calculateBurningArea s.config.grainConfig s.currentInnerRadius
        Kn := calculateBurningArea s.config.grainConfig s.currentInnerRadius /
          calculateThroatArea s.config.nozzle.throatDiameter
        maxPressure := max s.maxPressure (calculateChamberPressure
          (calculateBurningArea s.config.grainConfig s.currentInnerRadius)
          (calculateThroatArea s.config.nozzle.throatDiameter) s.config.propellant)
        currentInnerRadius := regressedRadius s.config s.currentInnerRadius dt
        isBurnedOut := true
        isBurning := false
        burnTime := s.time + dt
        thrust := 0
        chamberPressure := ATMOSPHERIC_PRESSURE
        burnRate := 0
        burnRateMmS := 0 } := by
  unfold update
  rw [if_neg (by simp [hb, hbo, hex])]
  dsimp only
  rw [if_pos (by simpa [burnoutAfter, regressedRadius] using hcond)]
  rfl

/-- Claim C3: in an update step taken while burning, if the regressed
radius trips the burnout condition then the phase becomes BurnedOut,
thrust and burn rate are zeroed, the chamber pressure is set to
atmospheric, the burn time is frozen at the current time, and the step
returns early: stress, safety factor, total impulse, history, maximum
thrust, explosion flag and explosion time are all left untouched. -/
theorem burnout_step (s : Sim) (dt : ℝ) (hb : s.isBurning = true)
    (hbo : s.isBurnedOut = false) (hex : s.hasExploded = false)
    (hcond : burnoutAfter s.config s.currentInnerRadius dt) :
    (update dt s).isBurnedOut = true ∧
    (update dt s).isBurning = false ∧
    (update dt s).thrust = 0 ∧
    (update dt s).burnRate = 0 ∧
    (update dt s).burnRateMmS = 0 ∧
    (update dt s).chamberPressure = 101325 ∧
    (update dt s).burnTime = s.time + dt ∧
    (update dt s).stress = s.stress ∧
    (update dt s).safetyFactor = s.safetyFactor ∧
    (update dt s).totalImpulse = s.totalImpulse ∧
    (update dt s).history = s.history ∧
    (update dt s).maxThrust = s.maxThrust ∧
    (update dt s).hasExploded = false ∧
    (update dt s).explosionTime = s.explosionTime := by
  rw [update_burnout_eq dt s hb hbo hex hcond]
  exact ⟨rfl, rfl, rfl, rfl, rfl, rfl, rfl, rfl, rfl, rfl, rfl, rfl, hex, rfl⟩

/-- The KNSB burn rate is at least 0.0001 m per s at every pressure:
the pressure floor of 0.1 MPa bounds the power-law base below, and an
exponent below one keeps the power above the base while the base is
below one. -/
lemma knsb_rate_lower (P : ℝ) : 0.0001 ≤ calculateBurnRate P KNSB := by
  unfold calculateBurnRate
  have h1 : KNSB.referencePressure = 6.895 := rfl
  have h2 : KNSB.burnRateCoeff = 8.26 := rfl
  have h3 : KNSB.burnRateExponent = 0.319 := rfl
  rw [h1, h2, h3, if_neg (by norm_num)]
  set x := max (P / 1e6) 0.1 with hxdef
  have hx01 : (0.1 : ℝ) ≤ x := le_max_right _ _
  have hxpos : (0 : ℝ) < x := by linarith
  have hbpos : (0 : ℝ) < x / 6.895 := by positivity
  have hb01 : (0.1 / 6.895 : ℝ) ≤ x / 6.895 := by gcongr
  have key : (0.1 / 6.895 : ℝ) ≤ (x / 6.895) ^ (0.319 : ℝ) := by
    rcases le_or_lt (x / 6.895) 1 with hle | hlt
    · have h4 : (x / 6.895) ^ (1 : ℝ) ≤ (x / 6.895) ^ (0.319 : ℝ) :=
        Real.rpow_le_rpow_of_exponent_ge hbpos hle (by norm_num)
      rw [Real.rpow_one] at h4
      linarith
    · have h4 : (1 : ℝ) ^ (0.319 : ℝ) ≤ (x / 6.895) ^ (0.319 : ℝ) :=
        Real.rpow_le_rpow (by norm_num) hlt.le (by norm_num)
      rw [Real.one_rpow] at h4
      have h5 : (0.1 / 6.895 : ℝ) ≤ 1 := by norm_num
      linarith
  have hval : (0.0001 : ℝ) ≤ 8.26 * (x / 6.895) ^ (0.319 : ℝ) / 1000 := by
    linarith
  exact le_trans (le_min hval (by norm_num)) (le_max_right 0 _)

/-- Witness for burnout_step: igniting the default configuration and
taking one oversized step burns the web through, zeroes the thrust,
resets the pressure to atmospheric and leaves the impulse untouched. -/
theorem burnout_step_witness :
    (update 10000 (ignite (reset defaultConfig))).isBurnedOut = true ∧
    (update 10000 (ignite (reset defaultConfig))).thrust = 0 ∧
    (update 10000 (ignite (reset defaultConfig))).chamberPressure = 101325 ∧
    (update 10000 (ignite (reset defaultConfig))).totalImpulse =
      (ignite (reset defaultConfig)).totalImpulse := by
  have hcond : burnoutAfter (ignite (reset defaultConfig)).config
      (ignite (reset defaultConfig)).currentInnerRadius 10000 := by
    show defaultConfig.grainConfig.outerRadius -
        regressedRadius defaultConfig 0.0095 10000 ≤ 0.001 ∨
      regressedRadius defaultConfig 0.0095 10000 ≥
        defaultConfig.grainConfig.outerRadius * 0.98
    left
    unfold regressedRadius
    have hrate : (0.0001 : ℝ) ≤ calculateBurnRate (calculateChamberPressure
        (calculateBurningArea defaultConfig.grainConfig 0.0095)
        (calculateThroatArea defaultConfig.nozzle.throatDiameter)
        defaultConfig.propellant) defaultConfig.propellant := knsb_rate_lower _
    have hout : defaultConfig.grainConfig.outerRadius = 0.0285 := rfl
    rw [hout]
    linarith
  have h := burnout_step (ignite (reset defaultConfig)) 10000 rfl rfl rfl hcond
  exact ⟨h.1, h.2.2.1, h.2.2.2.2.2.1, h.2.2.2.2.2.2.2.2.2.1⟩

/-- The configuration is constant along every reachable trace. -/
lemma update_config_any (dt : ℝ) (s : Sim) : (update dt s).config = s.config := by
  unfold update
  split
  · rfl
  · dsimp only
    split <;> rfl

/-- Reachable states carry the configuration they started from. -/
lemma reach_config {D : ℝ → Prop} {c : Config} {s : Sim}
    (h : ReachableFrom D c s) : s.config = c := by
  induction h with
  | init => rfl
  | igniteStep h ih =>
    rcases ignite_eq _ with he | he <;> rw [he] <;> exact ih
  | updateStep h hdt ih =>
    rw [update_config_any]
    exact ih
  | resetStep h ih => exact ih

/-- The inner radius never drops below the configured core radius along
any reachable trace with nonnegative timesteps. -/
lemma reach_lower {D : ℝ → Prop} (hD : ∀ dt, D dt → 0 ≤ dt) {c : Config} {s : Sim}
    (h : ReachableFrom D c s) :
    c.grainConfig.coreRadius ≤ s.currentInnerRadius := by
  induction h with
  | init => exact le_rfl
  | igniteStep h ih =>
    rcases ignite_eq _ with he | he <;> rw [he] <;> exact ih
  | @updateStep s dt h hdt ih =>
    by_cases hg : (!s.isBurning || s.isBurnedOut || s.hasExploded) = true
    · rw [update_stuck hg]
      exact ih
    · obtain ⟨hb, hbo, hex⟩ : s.isBurning = true ∧ s.isBurnedOut = false ∧
          s.hasExploded = false := by
        revert hg
        cases hcb : s.isBurning <;> cases hcbo : s.isBurnedOut <;>
          cases hce : s.hasExploded <;> simp
      have char := update_burning_char dt s hb hbo hex
      rw [char.2.1]
      unfold regressedRadius
      have hrnn : 0 ≤ calculateBurnRate (calculateChamberPressure
          (calculateBurningArea s.config.grainConfig s.currentInnerRadius)
          (calculateThroatArea s.config.nozzle.throatDiameter) s.config.propellant)
          s.config.propellant := calculateBurnRate_nonneg _ _
      have hmul : 0 ≤ calculateBurnRate (calculateChamberPressure
          (calculateBurningArea s.config.grainConfig s.currentInnerRadius)
          (calculateThroatArea s.config.nozzle.throatDiameter) s.config.propellant)
          s.config.propellant * dt := mul_nonneg hrnn (hD dt hdt)
      linarith
  | @resetStep s h ih =>
    have hcfg := reach_config h
    show c.grainConfig.coreRadius ≤ s.config.grainConfig.coreRadius
    rw [hcfg]

/-- With timesteps of at most one thirtieth of a second and at least
1 mm of initial web, the inner radius never exceeds the configured
outer radius, and a state that is not burned out always keeps strictly
more than 1 mm of web margin. -/
lemma reach_upper {c : Config}
    (hc : c.grainConfig.coreRadius + 0.001 ≤ c.grainConfig.outerRadius) {s : Sim}
    (h : ReachableFrom (fun dt => 0 < dt ∧ dt ≤ 1 / 30) c s) :
    s.currentInnerRadius ≤ c.grainConfig.outerRadius ∧
    (s.isBurnedOut = false →
      s.currentInnerRadius ≤ c.grainConfig.outerRadius - 0.001) := by
  induction h with
  | init =>
    constructor
    · show c.grainConfig.coreRadius ≤ c.grainConfig.outerRadius
      linarith
    · intro _
      show c.grainConfig.coreRadius ≤ c.grainConfig.outerRadius - 0.001
      linarith
  | igniteStep h ih =>
    rcases ignite_eq _ with he | he <;> rw [he] <;> exact ih
  | @updateStep s dt h hdt ih =>
    by_cases hg : (!s.isBurning || s.isBurnedOut || s.hasExploded) = true
    · rw [update_stuck hg]
      exact ih
    · obtain ⟨hb, hbo, hex⟩ : s.isBurning = true ∧ s.isBurnedOut = false ∧
          s.hasExploded = false := by
        revert hg
        cases hcb : s.isBurning <;> cases hcbo : s.isBurnedOut <;>
          cases hce : s.hasExploded <;> simp
      have char := update_burning_char dt s hb hbo hex
      obtain ⟨hdt0, hdt33⟩ := hdt
      have hweb : s.currentInnerRadius ≤ c.grainConfig.outerRadius - 0.001 :=
        ih.2 hbo
      have hrle : calculateBurnRate (calculateChamberPressure
          (calculateBurningArea s.config.grainConfig s.currentInnerRadius)
          (calculateThroatArea s.config.nozzle.throatDiameter) s.config.propellant)
          s.config.propellant ≤ 0.030 := calculateBurnRate_le _ _
      have hrnn : 0 ≤ calculateBurnRate (calculateChamberPressure
          (calculateBurningArea s.config.grainConfig s.currentInnerRadius)
          (calculateThroatArea s.config.nozzle.throatDiameter) s.config.propellant)
          s.config.propellant := calculateBurnRate_nonneg _ _
      have hprod : calculateBurnRate (calculateChamberPressure
          (calculateBurningArea s.config.grainConfig s.currentInnerRadius)
          (calculateThroatArea s.config.nozzle.throatDiameter) s.config.propellant)
          s.config.propellant * dt ≤ 0.030 * (1 / 30) :=
        mul_le_mul hrle hdt33 hdt0.le (by norm_num)
      constructor
      · rw [char.2.1]
        unfold regressedRadius
        linarith
      · intro hb2
        have hgap := char.2.2 hb2
        have hcfg := reach_config h
        rw [char.2.1, hcfg]
        rw [hcfg] at hgap
        linarith
  | @resetStep s h ih =>
    have hcfg := reach_config h
    constructor
    · show s.config.grainConfig.coreRadius ≤ c.grainConfig.outerRadius
      rw [hcfg]
      linarith
    · intro _
      show s.config.grainConfig.coreRadius ≤ c.grainConfig.outerRadius - 0.001
      rw [hcfg]
      linarith

/-- Claim C2 amended: along every trace of ignite, update and reset the
lower bound of the radius invariant holds for arbitrary positive
timesteps, and the full invariant - core radius at most the current
inner radius at most the outer radius - holds provided the grain starts
with at least 1 mm of web and every timestep is at most one thirtieth
of a second (so that one step regresses at most the clamped maximal
burn rate of 0.030 m per s times the timestep, at most 1 mm, the web
margin every live state keeps).  A single larger timestep can push the
inner radius past the outer radius, as radius_invariant_cex shows. -/
theorem radius_invariant (c : Config)
    (hc : c.grainConfig.coreRadius + 0.001 ≤ c.grainConfig.outerRadius) :
    (∀ s, ReachableFrom (fun dt => 0 < dt) c s →
      c.grainConfig.coreRadius ≤ s.currentInnerRadius) ∧
    (∀ s, ReachableFrom (fun dt => 0 < dt ∧ dt ≤ 1 / 30) c s →
      c.grainConfig.coreRadius ≤ s.currentInnerRadius ∧
      s.currentInnerRadius ≤ c.grainConfig.outerRadius) :=
  ⟨fun _ h => reach_lower (fun _ hdt => hdt.le) h,
   fun _ h => ⟨reach_lower (fun _ hdt => hdt.1.le) h, (reach_upper hc h).1⟩⟩

/-- Witness for radius_invariant at the default configuration and the
state after ignite and one 10 ms step. -/
theorem radius_invariant_witness :
    defaultConfig.grainConfig.coreRadius ≤
      (update 0.01 (ignite (reset defaultConfig))).currentInnerRadius ∧
    (update 0.01 (ignite (reset defaultConfig))).currentInnerRadius ≤
      defaultConfig.grainConfig.outerRadius :=
  (radius_invariant defaultConfig (by norm_num [defaultConfig])).2 _
    (ReachableFrom.updateStep (ReachableFrom.igniteStep ReachableFrom.init)
      (by norm_num))

/-- Counterexample to claim C2: from the default configuration, ignite
followed by a single update with the positive timestep 10000 s drives
the inner radius past the outer radius - the regression is applied
before the burnout check and is never clamped to the remaining web, so
the upper half of the invariant fails for unrestricted timesteps. -/
theorem radius_invariant_cex :
    ReachableFrom (fun dt => 0 < dt) defaultConfig
      (update 10000 (ignite (reset defaultConfig))) ∧
    defaultConfig.grainConfig.outerRadius <
      (update 10000 (ignite (reset defaultConfig))).currentInnerRadius := by
  constructor
  · exact ReachableFrom.updateStep (ReachableFrom.igniteStep ReachableFrom.init)
      (by norm_num)
  · have hchar := update_burning_char 10000 (ignite (reset defaultConfig)) rfl rfl rfl
    rw [hchar.2.1]
    have hcfg : (ignite (reset defaultConfig)).config = defaultConfig := rfl
    have hcurr : (ignite (reset defaultConfig)).currentInnerRadius = 0.0095 := rfl
    rw [hcfg, hcurr]
    unfold regressedRadius
    have hrate : (0.0001 : ℝ) ≤ calculateBurnRate (calculateChamberPressure
        (calculateBurningArea defaultConfig.grainConfig 0.0095)
        (calculateThroatArea defaultConfig.nozzle.throatDiameter)
        defaultConfig.propellant) defaultConfig.propellant := knsb_rate_lower _
    have hout : defaultConfig.grainConfig.outerRadius = 0.0285 := rfl
    rw [hout]
    linarith

/-- One update step preserves the 10 ms spacing of the history time
series: the sampling guard admits a new sample only when at least
0.01 s have elapsed since the sample at the head. -/
lemma update_chain (dt : ℝ) (s : Sim)
    (h : List.Chain' (fun a b => 0.01 ≤ a - b) s.history.time) :
    List.Chain' (fun a b => 0.01 ≤ a - b) (update dt s).history.time := by
  unfold update
  split
  · exact h
  · dsimp only
    split
    · exact h
    · dsimp only
      by_cases hs : shouldSample s.history (s.time + dt)
      · rw [if_pos hs]
        simp only [pushHistory]
        cases hl : s.history.time with
        | nil => simp
        | cons t0 rest =>
          rw [List.chain'_cons]
          constructor
          · unfold shouldSample at hs
            rw [hl] at hs
            exact hs
          · rw [← hl]
            exact h
      · rw [if_neg hs]
        exact h

/-- Claim C5: along every trace with arbitrary positive timesteps -
timesteps below 10 ms included - consecutive entries of the history
time series (stored newest first) are at least 0.01 s of simulated
time apart. -/
theorem history_sampling (c : Config) (s : Sim)
    (h : ReachableFrom (fun dt => 0 < dt) c s) :
    List.Chain' (fun a b => 0.01 ≤ a - b) s.history.time := by
  induction h with
  | init => simp [reset, History.empty]
  | igniteStep h ih =>
    rcases ignite_eq _ with he | he <;> rw [he] <;> exact ih
  | updateStep h hdt ih => exact update_chain _ _ ih
  | resetStep h ih => simp [reset, History.empty]

/-- Witness for history_sampling: the trace that ignites the default
configuration and steps once by 5 ms - below the sampling interval. -/
theorem history_sampling_witness :
    List.Chain' (fun a b => 0.01 ≤ a - b)
      (update 0.005 (ignite (reset defaultConfig))).history.time :=
  history_sampling defaultConfig _
    (ReachableFrom.updateStep (ReachableFrom.igniteStep ReachableFrom.init)
      (by norm_num))

end
